import Mathlib

/-!
Verification of the valutatrade_hub core against its specification.

The definitions below are a shallow embedding of the Python source:
Python floats become exact rationals `ℚ`, Python dicts become ordered
association lists (Python dicts preserve insertion order), raised
exceptions become `Except` errors, and persisted JSON values become the
inductive `Json` type.  Wall-clock dependent parts (timestamps, TTL
refresh) are modelled as abstract string data or omitted where a claim
does not depend on them; each such choice is noted on the definition.
-/

namespace ValutaHub

/-- Errors raised by `Wallet` operations (core/exceptions.py):
`InvalidAmountError` carries the offending amount, `InsufficientFundsError`
carries the currency code, the available balance and the required amount. -/
inductive WalletError where
  | invalidAmount (amount : ℚ)
  | insufficientFunds (currency_code : String) (available required : ℚ)
  deriving DecidableEq

/-- Wallet (core/models.py, class `Wallet`): one currency code and a balance.
The constructor stores the initial balance without validation. -/
structure Wallet where
  currency_code : String
  balance : ℚ
  deriving DecidableEq

/-- The `balance` property setter: rejects negative values with
`InvalidAmountError` (the `isinstance` number check is subsumed by typing
amounts as `ℚ`). -/
def Wallet.setBalance (w : Wallet) (value : ℚ) : Except WalletError Wallet :=
  if value < 0 then .error (.invalidAmount value)
  else .ok { w with balance := value }

/-- `Wallet.deposit`: rejects non-positive amounts, then assigns
`balance + amount` through the balance setter. -/
def Wallet.deposit (w : Wallet) (amount : ℚ) : Except WalletError Wallet :=
  if amount ≤ 0 then .error (.invalidAmount amount)
  else w.setBalance (w.balance + amount)

/-- `Wallet.withdraw`: rejects non-positive amounts, raises
`InsufficientFundsError` when `amount > balance`, otherwise assigns
`balance - amount` through the balance setter. -/
def Wallet.withdraw (w : Wallet) (amount : ℚ) : Except WalletError Wallet :=
  if amount ≤ 0 then .error (.invalidAmount amount)
  else if amount > w.balance then
    .error (.insufficientFunds w.currency_code w.balance amount)
  else w.setBalance (w.balance - amount)

/-- One deposit or withdraw request in a sequence of operations. -/
inductive WalletOp where
  | deposit (amount : ℚ)
  | withdraw (amount : ℚ)
  deriving DecidableEq

/-- Effect of one operation on the wallet state: a raised exception leaves
the wallet unchanged (the Python methods raise before any mutation). -/
def Wallet.applyOp (w : Wallet) (op : WalletOp) : Wallet :=
  match op with
  | .deposit a =>
    match w.deposit a with
    | .ok w2 => w2
    | .error _ => w
  | .withdraw a =>
    match w.withdraw a with
    | .ok w2 => w2
    | .error _ => w

/-- Effect of a finite sequence of deposit/withdraw operations. -/
def Wallet.applyOps (w : Wallet) (ops : List WalletOp) : Wallet :=
  ops.foldl Wallet.applyOp w

theorem Wallet.setBalance_ok_nonneg (w w2 : Wallet) (v : ℚ)
    (h : w.setBalance v = .ok w2) : 0 ≤ w2.balance := by
  unfold Wallet.setBalance at h
  split at h
  · cases h
  · rename_i hv
    cases h
    simpa using le_of_not_lt hv

theorem Wallet.deposit_ok_nonneg (w w2 : Wallet) (a : ℚ)
    (h : w.deposit a = .ok w2) : 0 ≤ w2.balance := by
  unfold Wallet.deposit at h
  split at h
  · cases h
  · exact Wallet.setBalance_ok_nonneg _ _ _ h

theorem Wallet.withdraw_ok_nonneg (w w2 : Wallet) (a : ℚ)
    (h : w.withdraw a = .ok w2) : 0 ≤ w2.balance := by
  unfold Wallet.withdraw at h
  split at h
  · cases h
  · split at h
    · cases h
    · exact Wallet.setBalance_ok_nonneg _ _ _ h

theorem Wallet.applyOp_nonneg (w : Wallet) (op : WalletOp)
    (h : 0 ≤ w.balance) : 0 ≤ (w.applyOp op).balance := by
  cases op with
  | deposit a =>
    simp only [Wallet.applyOp]
    split
    · rename_i w2 heq
      exact Wallet.deposit_ok_nonneg _ _ _ heq
    · exact h
  | withdraw a =>
    simp only [Wallet.applyOp]
    split
    · rename_i w2 heq
      exact Wallet.withdraw_ok_nonneg _ _ _ heq
    · exact h

/-- C1: starting from a non-negative balance, every sequence of deposit and
withdraw operations keeps the balance non-negative (so in particular the
balance after every operation of the sequence is non-negative), and a
withdraw of more than the balance fails with `InsufficientFundsError`
carrying the available balance and the required amount, leaving the
wallet unchanged. -/
theorem wallet_balance_invariant (w : Wallet) (ops : List WalletOp)
    (h : 0 ≤ w.balance) :
    0 ≤ (w.applyOps ops).balance ∧
    ∀ a : ℚ, a > w.balance →
      w.withdraw a = .error (.insufficientFunds w.currency_code w.balance a) ∧
      w.applyOp (.withdraw a) = w := by
  constructor
  · induction ops generalizing w with
    | nil => exact h
    | cons op rest ih =>
      simpa [Wallet.applyOps] using ih (w.applyOp op) (w.applyOp_nonneg op h)
  · intro a ha
    have hpos : ¬ a ≤ 0 := not_le.mpr (lt_of_le_of_lt h ha)
    constructor
    · simp [Wallet.withdraw, hpos, ha]
    · simp [Wallet.applyOp, Wallet.withdraw, hpos, ha]

/-- Witness for C1 at a concrete wallet and operation sequence. -/
theorem wallet_balance_invariant_witness :
    0 ≤ ((Wallet.mk "USD" 5).applyOps
      [.deposit 3, .withdraw 7, .withdraw 10]).balance ∧
    (Wallet.mk "USD" 5).withdraw 9 =
      .error (.insufficientFunds "USD" 5 9) :=
  ⟨(wallet_balance_invariant (Wallet.mk "USD" 5)
      [.deposit 3, .withdraw 7, .withdraw 10] (by norm_num)).1,
   ((wallet_balance_invariant (Wallet.mk "USD" 5) [] (by norm_num)).2 9
      (by norm_num)).1⟩

/-- A JSON value as stored in the data files (the shapes `json.dump` can
write and `json.load` can return).  JSON arrays do not occur in the
snapshot shapes the claims below are about, so they are not included. -/
inductive Json where
  | null
  | bool (b : Bool)
  | num (q : ℚ)
  | str (s : String)
  | obj (entries : List (String × Json))

/-- State of the two paths touched by `DatabaseManager.save` for one target
filename: the main file `path` and the staging file `path + ".tmp"`.
`none` means the path does not exist; a present file holds the parsed value
it was fully written with (`json.dump` writes a complete document and
`json.load` reads it back). -/
structure FileState where
  main : Option Json
  temp : Option Json

/-- `DatabaseManager.load` (infra/database.py) as seen by a reader of the
main path when every fully written file parses: a missing file yields the
empty object, a present file yields its content.  (The parse-failure arm of
`load` is modelled separately by `DatabaseManager.load` below.) -/
def readSnapshot (main : Option Json) : Json :=
  match main with
  | none => Json.obj []
  | some d => d

/-- `DatabaseManager.save` (infra/database.py) as the sequence of file
states a concurrently running reader (or a crash) can observe: the initial
state, the state after the temporary file `path + ".tmp"` is written, the
state after `os.remove(path)` (executed only when the main file exists),
and the state after `os.rename(temp_path, path)`. -/
def saveStates (fs : FileState) (data : Json) : List FileState :=
  let afterTemp : FileState := { fs with temp := some data }
  let afterRemove : FileState := { afterTemp with main := none }
  let afterRename : FileState := { main := some data, temp := none }
  if fs.main.isSome then [fs, afterTemp, afterRemove, afterRename]
  else [fs, afterTemp, afterRename]

/-- C2: the claim that every intermediate point of `DatabaseManager.save`
shows a reader either the complete old content or the complete new content
is false: after `os.remove(path)` and before `os.rename`, the main path is
absent, so a reader at that point (or after a crash there) observes the
empty object, which is neither the old nor the new snapshot.  Exhibited on
the concrete store content a=1 being replaced by b=2. -/
theorem save_crash_window_violation :
    ∃ s ∈ saveStates
        { main := some (Json.obj [("a", Json.num 1)]), temp := none }
        (Json.obj [("b", Json.num 2)]),
      readSnapshot s.main ≠ Json.obj [("a", Json.num 1)] ∧
      readSnapshot s.main ≠ Json.obj [("b", Json.num 2)] := by
  refine ⟨{ main := none,
            temp := some (Json.obj [("b", Json.num 2)]) }, ?_, ?_, ?_⟩
  · simp [saveStates]
  · simp [readSnapshot]
  · simp [readSnapshot]

/-- `DatabaseManager.load` (infra/database.py), at the level of raw file
text: parameterized by the JSON parser, it returns the empty object when
the file does not exist, the parsed content when parsing succeeds, and the
empty object again when parsing raises (the bare `except` arm). -/
def DatabaseManager.load (parse : String → Option Json) (file : Option String) :
    Json :=
  match file with
  | none => Json.obj []
  | some text =>
    match parse text with
    | some d => d
    | none => Json.obj []

/-- C10: `DatabaseManager.load` is total — for every filename state it
returns the parsed content when the file exists and parses, and the empty
object both when the file is missing and when its content fails to parse,
whatever the parser is. -/
theorem load_total_semantics (parse : String → Option Json)
    (file : Option String) :
    (file = none → DatabaseManager.load parse file = Json.obj []) ∧
    (∀ text, file = some text → parse text = none →
      DatabaseManager.load parse file = Json.obj []) ∧
    (∀ text d, file = some text → parse text = some d →
      DatabaseManager.load parse file = d) := by
  refine ⟨?_, ?_, ?_⟩
  · intro h
    subst h
    rfl
  · intro text h hp
    subst h
    simp [DatabaseManager.load, hp]
  · intro text d h hp
    subst h
    simp [DatabaseManager.load, hp]

/-- Witness for C10 on a concrete parser and the three concrete file
states: missing file, corrupt file, well-formed file. -/
theorem load_total_semantics_witness :
    DatabaseManager.load (fun _ => none) none = Json.obj [] ∧
    DatabaseManager.load (fun _ => none) (some "garbage") = Json.obj [] ∧
    DatabaseManager.load (fun _ => some (Json.num 3)) (some "3") =
      Json.num 3 :=
  ⟨(load_total_semantics (fun _ => none) none).1 rfl,
   (load_total_semantics (fun _ => none) (some "garbage")).2.1 "garbage"
     rfl rfl,
   (load_total_semantics (fun _ => some (Json.num 3)) (some "3")).2.2 "3"
     (Json.num 3) rfl rfl⟩

instance {ε α : Type} [DecidableEq ε] [DecidableEq α] :
    DecidableEq (Except ε α) := fun a b =>
  match a, b with
  | .ok x, .ok y =>
    if h : x = y then isTrue (by simp [h])
    else isFalse (fun hh => h (by cases hh; rfl))
  | .error x, .error y =>
    if h : x = y then isTrue (by simp [h])
    else isFalse (fun hh => h (by cases hh; rfl))
  | .ok _, .error _ => isFalse (fun hh => by cases hh)
  | .error _, .ok _ => isFalse (fun hh => by cases hh)

/-- Python `str.upper()` on the character data (case mapping of the ASCII
letters, the only ones occurring in currency codes). -/
def pyUpper (s : String) : String := ⟨s.data.map Char.toUpper⟩

/-- Python `str.strip()`: whitespace removed from both ends. -/
def pyStrip (s : String) : String :=
  ⟨((s.data.dropWhile Char.isWhitespace).reverse.dropWhile
      Char.isWhitespace).reverse⟩

/-- A currency as constructed by `get_currency` (core/currencies.py):
display name and normalized code. -/
structure Currency where
  name : String
  code : String
  deriving DecidableEq

/-- The table built inside `get_currency` (core/currencies.py): code →
display name, in source order.  Every key is an uppercase 2–5 character
alphanumeric code, so the `Currency` constructor checks always pass. -/
def currencyNames : List (String × String) :=
  [("USD", "US Dollar"), ("EUR", "Euro"), ("GBP", "British Pound"),
   ("JPY", "Japanese Yen"), ("CHF", "Swiss Franc"),
   ("CAD", "Canadian Dollar"), ("AUD", "Australian Dollar"),
   ("CNY", "Chinese Yuan"), ("HKD", "Hong Kong Dollar"),
   ("SGD", "Singapore Dollar"), ("SEK", "Swedish Krona"),
   ("NOK", "Norwegian Krone"), ("KRW", "South Korean Won"),
   ("NZD", "New Zealand Dollar"), ("INR", "Indian Rupee"),
   ("BRL", "Brazilian Real"), ("RUB", "Russian Ruble"),
   ("ZAR", "South African Rand"), ("MXN", "Mexican Peso"),
   ("TRY", "Turkish Lira"), ("PLN", "Polish Zloty"), ("THB", "Thai Baht"),
   ("IDR", "Indonesian Rupiah"), ("HUF", "Hungarian Forint"),
   ("CZK", "Czech Koruna"), ("ILS", "Israeli New Shekel"),
   ("CLP", "Chilean Peso"), ("PHP", "Philippine Peso"),
   ("AED", "United Arab Emirates Dirham"), ("COP", "Colombian Peso"),
   ("SAR", "Saudi Riyal"), ("MYR", "Malaysian Ringgit"),
   ("RON", "Romanian Leu"), ("BTC", "Bitcoin"), ("ETH", "Ethereum"),
   ("BNB", "Binance Coin"), ("XRP", "Ripple"), ("SOL", "Solana"),
   ("DOGE", "Dogecoin"), ("ADA", "Cardano"), ("AVAX", "Avalanche"),
   ("DOT", "Polkadot"), ("TRX", "TRON")]

/-- Errors raised by the use-case layer (core/exceptions.py plus built-in
Python errors).  `typeError` stands for a Python `TypeError` raised by
arithmetic or comparison on a non-numeric stored rate; `zeroDivision`
stands for a Python `ZeroDivisionError`; `valueError` for `ValueError`. -/
inductive CoreError where
  | currencyNotFound (code : String)
  | apiRequest (reason : String)
  | invalidAmount (amount : ℚ)
  | valueError (message : String)
  | typeError
  | zeroDivision
  deriving DecidableEq

/-- `get_currency` (core/currencies.py): uppercases the requested code,
raises `CurrencyNotFoundError` when it is not in the table, and otherwise
returns the `Currency` whose `code` field is the table key. -/
def get_currency (code : String) : Except CoreError Currency :=
  let c := pyUpper code
  match currencyNames.lookup c with
  | some nm => .ok { name := nm, code := c }
  | none => .error (.currencyNotFound c)

/-- Reading a rate out of one stored pair entry, shared by
`get_exchange_rate`, `show_user_portfolio` and `Portfolio.get_total_value`:
`pair_data.get("rate", 0) if isinstance(pair_data, dict) else pair_data`.
A missing "rate" key defaults to 0. Non-numeric stored values, which make
the subsequent Python comparison or division raise and hence make the
operation fail, are mapped to 0, which makes the embedded operation fail
on the same inputs (a 0 rate is rejected on every path below). -/
def extractRate (pair_data : Json) : ℚ :=
  match pair_data with
  | .obj kvs =>
    match kvs.lookup "rate" with
    | some (.num q) => q
    | some _ => 0
    | none => 0
  | .num q => q
  | _ => 0

/-- The pricing step of `buy_currency` and `sell_currency`
(core/usecases.py lines 273–290 and 417–435), over the `pairs` mapping of
the nested snapshot (`rates_data["pairs"]`; both trade functions extract
exactly this mapping from the loaded snapshot): the settlement currency
USD prices at exactly 1.0 with no lookup; otherwise only the direct key
`CODE_USD` is consulted — a missing key raises `ApiRequestError`, a
non-dict or "rate"-less entry raises `ApiRequestError`, a non-numeric rate
raises `TypeError` at the `rate <= 0` comparison, and a non-positive rate
raises `ApiRequestError`. -/
def tradeRateUSD (pairs : List (String × Json)) (currency_code : String) :
    Except CoreError ℚ :=
  if currency_code = "USD" then .ok 1
  else
    match pairs.lookup (currency_code ++ "_USD") with
    | none =>
      .error (.apiRequest ("Курс для " ++ currency_code ++ "→USD не найден"))
    | some rate_data =>
      match rate_data with
      | .obj kvs =>
        match kvs.lookup "rate" with
        | some (.num rate) =>
          if rate ≤ 0 then
            .error (.apiRequest ("Некорректный курс для " ++ currency_code))
          else .ok rate
        | some _ => .error .typeError
        | none =>
          .error (.apiRequest ("Неверный формат курса для " ++ currency_code))
      | _ =>
        .error (.apiRequest ("Неверный формат курса для " ++ currency_code))

/-- The strategy chain of `get_exchange_rate` (core/usecases.py lines
590–626), over the extracted flat rate map: the direct pair if its key is
present (whatever its rate), else the reverse pair when its rate is
nonzero, else the bridge through the base currency when the denominator is
nonzero; `none` when no strategy assigned a rate.  The `elif` chain stops
at the first present key: a present direct key prevents the reverse and
bridge strategies even when its stored rate is 0. -/
def resolveChain (rates : List (String × ℚ)) (from_code to_code BASE : String) :
    Option ℚ :=
  match rates.lookup (from_code ++ "_" ++ to_code) with
  | some r => some r
  | none =>
    match rates.lookup (to_code ++ "_" ++ from_code) with
    | some reverse_rate =>
      if reverse_rate ≠ 0 then some (1 / reverse_rate) else none
    | none =>
      match rates.lookup (from_code ++ "_" ++ BASE),
          rates.lookup (to_code ++ "_" ++ BASE) with
      | some rate_from, some rate_to =>
        if rate_to ≠ 0 then some (rate_from / rate_to) else none
      | _, _ => none

/-- `get_exchange_rate` (core/usecases.py lines 521–651), over the `pairs`
mapping of the loaded snapshot: normalizes both codes with
`.upper().strip()`, returns exactly 1.0 for equal codes before any
validation or lookup, validates both codes via `get_currency`, then tries
the strategy chain — direct pair, else reverse pair (used only when its
rate is nonzero), else the USD bridge (used only when the denominator is
nonzero) — and raises `ApiRequestError` when the chain produces nothing or
produces 0.  The TTL-triggered background refresh (which only swaps in a
fresh snapshot before resolution) and the message formatting of the result
are not modelled; the function returns the resolved rate. -/
def get_exchange_rate (pairs : List (String × Json))
    (from_currency to_currency : String) : Except CoreError ℚ :=
  let fc := pyStrip (pyUpper from_currency)
  let tc := pyStrip (pyUpper to_currency)
  if fc = "" ∨ tc = "" then
    .error (.valueError "Коды валют не могут быть пустыми")
  else if fc = tc then .ok 1
  else
    match get_currency fc, get_currency tc with
    | .error e, _ => .error e
    | .ok _, .error e => .error e
    | .ok from_obj, .ok to_obj =>
      let from_code := from_obj.code
      let to_code := to_obj.code
      let rates := pairs.map (fun p => (p.1, extractRate p.2))
      match resolveChain rates from_code to_code "USD" with
      | none =>
        .error (.apiRequest ("Курс " ++ from_code ++ "→" ++ to_code ++
          " недоступен"))
      | some r =>
        if r = 0 then
          .error (.apiRequest ("Курс " ++ from_code ++ "→" ++ to_code ++
            " недоступен"))
        else .ok r

theorem lookup_some_mem {β : Type} (l : List (String × β)) (k : String) (v : β)
    (h : l.lookup k = some v) : (k, v) ∈ l := by
  induction l with
  | nil => cases h
  | cons p t ih =>
    simp only [List.lookup] at h
    cases hk : (k == p.1) with
    | true =>
      rw [hk] at h
      cases h
      have hkp : k = p.1 := by simpa using hk
      simp [hkp]
    | false =>
      rw [hk] at h
      exact List.mem_cons_of_mem _ (ih h)

theorem lookup_append_none {β : Type} (l1 l2 : List (String × β)) (k : String)
    (h : l1.lookup k = none) : (l1 ++ l2).lookup k = l2.lookup k := by
  induction l1 with
  | nil => rfl
  | cons p t ih =>
    simp only [List.lookup, List.cons_append] at h ⊢
    cases hk : (k == p.1) with
    | true => rw [hk] at h; cases h
    | false =>
      rw [hk] at h
      exact ih h

theorem lookup_map_snd {β γ : Type} (f : β → γ) (l : List (String × β))
    (k : String) :
    (l.map (fun p => (p.1, f p.2))).lookup k = (l.lookup k).map f := by
  induction l with
  | nil => rfl
  | cons p t ih =>
    simp only [List.map, List.lookup]
    cases hk : (k == p.1) with
    | true => rfl
    | false => exact ih

theorem currency_keys_normalized :
    ∀ p ∈ currencyNames, pyUpper p.1 = p.1 ∧ pyStrip p.1 = p.1 ∧ p.1 ≠ "" := by
  decide

theorem get_currency_ok (c : String) (obj : Currency)
    (h : get_currency c = .ok obj) :
    obj.code = pyUpper c ∧ currencyNames.lookup obj.code = some obj.name := by
  simp only [get_currency] at h
  split at h
  · rename_i nm hl
    cases h
    exact ⟨rfl, hl⟩
  · cases h

/-- First-match replacement in an ordered association list: the in-place
mutation of the `Wallet` object stored under an existing key of the
portfolio's wallet dict (insertion order preserved). -/
def updateAssoc : List (String × ℚ) → String → ℚ → List (String × ℚ)
  | [], _, _ => []
  | (k, v) :: rest, key, value =>
    if k = key then (key, value) :: rest
    else (k, v) :: updateAssoc rest key value

/-- The portfolio-update step of `buy_currency` (core/usecases.py lines
313–337) over the wallets of the loaded portfolio as an ordered map
`wallet key → balance`: when `get_wallet(currency)` fails the wallet is
created by `add_currency(currency, amount)` — appended with initial
balance `amount`, no validation — and otherwise the existing wallet
receives `deposit(amount)` with its guards (non-positive amount and the
negative-result guard of the balance setter).  Both operations are keyed
by the raw `currency` argument of the trade, exactly as in the source. -/
def buyApplyWallets (wallets : List (String × ℚ)) (currency : String)
    (amount : ℚ) : Except CoreError (List (String × ℚ)) :=
  match wallets.lookup currency with
  | none => .ok (wallets ++ [(currency, amount)])
  | some old_balance =>
    if amount ≤ 0 then .error (.invalidAmount amount)
    else if old_balance + amount < 0 then
      .error (.invalidAmount (old_balance + amount))
    else .ok (updateAssoc wallets currency (old_balance + amount))

/-- `buy_currency` (core/usecases.py lines 237–378) over the loaded
portfolio wallets and the snapshot's `pairs` mapping: validates the
amount, validates the currency via `get_currency`, prices via the direct
`CODE_USD` lookup (`tradeRateUSD`), and updates the wallet keyed by the
raw `currency` argument; returns the wallets that are then persisted,
together with the applied rate.  The session check, file IO and report
formatting are not modelled; a raised error means no new portfolio is
saved. -/
def buy_currency (wallets : List (String × ℚ)) (currency : String)
    (amount : ℚ) (pairs : List (String × Json)) :
    Except CoreError (List (String × ℚ) × ℚ) :=
  if amount ≤ 0 then .error (.invalidAmount amount)
  else
    match get_currency currency with
    | .error e => .error e
    | .ok currency_obj =>
      match tradeRateUSD pairs currency_obj.code with
      | .error e => .error e
      | .ok rate =>
        match buyApplyWallets wallets currency amount with
        | .error e => .error e
        | .ok new_wallets => .ok (new_wallets, rate)

theorem get_exchange_rate_eval (pairs : List (String × Json))
    (c₁ c₂ nm₁ nm₂ : String)
    (h1 : pyStrip (pyUpper c₁) = c₁) (h2 : pyStrip (pyUpper c₂) = c₂)
    (hne1 : c₁ ≠ "") (hne2 : c₂ ≠ "") (hne : c₁ ≠ c₂)
    (hv1 : get_currency c₁ = .ok ⟨nm₁, c₁⟩)
    (hv2 : get_currency c₂ = .ok ⟨nm₂, c₂⟩) :
    get_exchange_rate pairs c₁ c₂ =
      (match resolveChain (pairs.map fun p => (p.1, extractRate p.2))
          c₁ c₂ "USD" with
       | none => .error (.apiRequest ("Курс " ++ c₁ ++ "→" ++ c₂ ++
           " недоступен"))
       | some r =>
         if r = 0 then
           .error (.apiRequest ("Курс " ++ c₁ ++ "→" ++ c₂ ++ " недоступен"))
         else .ok r) := by
  simp only [get_exchange_rate, h1, h2]
  rw [if_neg (by simp [hne1, hne2]), if_neg hne, hv1, hv2]

/-- C3 (amended): if the bought or sold currency is the settlement currency
USD, the applied rate is exactly 1.0 with no lookup; whenever a trade's
pricing succeeds with rate `r`, the Rate Resolver (`get_exchange_rate`)
returns the same `r` for (code, USD); but the trade consults only the
direct pair `CODE_USD` — when that key is absent the trade fails with
`ApiRequestError` even if the resolver's reverse or bridge strategy would
produce a rate. -/
theorem trade_rate_resolver_policy (pairs : List (String × Json))
    (c : String) :
    (c = "USD" → tradeRateUSD pairs c = .ok 1) ∧
    (∀ nm, get_currency c = .ok ⟨nm, c⟩ →
      ∀ r, tradeRateUSD pairs c = .ok r →
        get_exchange_rate pairs c "USD" = .ok r) ∧
    (c ≠ "USD" → pairs.lookup (c ++ "_USD") = none →
      tradeRateUSD pairs c =
        .error (.apiRequest ("Курс для " ++ c ++ "→USD не найден"))) := by
  refine ⟨?_, ?_, ?_⟩
  · intro h
    subst h
    simp [tradeRateUSD]
  · intro nm hv r htr
    obtain ⟨hcode, hlook⟩ := get_currency_ok c ⟨nm, c⟩ hv
    have hup : pyUpper c = c := hcode.symm
    have hmem : (c, nm) ∈ currencyNames :=
      lookup_some_mem _ _ _ hlook
    obtain ⟨-, hstrip, hne0⟩ := currency_keys_normalized (c, nm) hmem
    have h1 : pyStrip (pyUpper c) = c := by rw [hup]; exact hstrip
    have h2 : pyStrip (pyUpper "USD") = "USD" := by decide
    by_cases hUSD : c = "USD"
    · subst hUSD
      have hr : (1 : ℚ) = r := by simpa [tradeRateUSD] using htr
      subst hr
      simp [get_exchange_rate, h2]
    · rw [tradeRateUSD, if_neg hUSD] at htr
      split at htr
      · cases htr
      · split at htr
        · split at htr
          · rename_i rate_data hlp kvs rate hlr
            split at htr
            · cases htr
            · rename_i hr0
              cases htr
              have hsub : ("_" ++ "USD" : String) = "_USD" := rfl
              have hkey : c ++ "_" ++ "USD" = c ++ "_USD" := by
                rw [String.append_assoc, hsub]
              have hrc : resolveChain
                  (pairs.map fun p => (p.1, extractRate p.2))
                  c "USD" "USD" = some r := by
                simp only [resolveChain, hkey, lookup_map_snd, hlp,
                  Option.map_some]
                simp [extractRate, hlr]
              have hrne : ¬ r = 0 := fun h0 => hr0 (le_of_eq h0)
              rw [get_exchange_rate_eval pairs c "USD" nm "US Dollar" h1 h2
                hne0 (by decide) hUSD hv (by decide)]
              simp only [hrc]
              rw [if_neg hrne]
          · cases htr
          · cases htr
        · cases htr
  · intro hne hl
    simp [tradeRateUSD, hne, hl]

/-- Witness for C3 (amended) at a concrete store and currency. -/
theorem trade_rate_resolver_policy_witness :
    tradeRateUSD [("EUR_USD", Json.obj [("rate", Json.num 2)])] "USD" =
      .ok 1 ∧
    get_exchange_rate [("EUR_USD", Json.obj [("rate", Json.num 2)])]
      "EUR" "USD" = .ok 2 ∧
    tradeRateUSD [("USD_EUR", Json.obj [("rate", Json.num 2)])] "EUR" =
      .error (.apiRequest "Курс для EUR→USD не найден") :=
  ⟨(trade_rate_resolver_policy
      [("EUR_USD", Json.obj [("rate", Json.num 2)])] "USD").1 rfl,
   (trade_rate_resolver_policy
      [("EUR_USD", Json.obj [("rate", Json.num 2)])] "EUR").2.1 "Euro"
      (by decide) 2 (by simp [tradeRateUSD, List.lookup]),
   (trade_rate_resolver_policy
      [("USD_EUR", Json.obj [("rate", Json.num 2)])] "EUR").2.2
      (by decide) rfl⟩

/-- C3 counterexample: with the direct pair EUR_USD absent but the reverse
pair USD_EUR present with nonzero rate 2, the trade is not priced at
1/2 — `buy_currency` fails with `ApiRequestError` — although the Rate
Resolver returns 1/2 for (EUR, USD). -/
theorem trade_reverse_only_fails :
    buy_currency [] "EUR" 2 [("USD_EUR", Json.obj [("rate", Json.num 2)])] =
      .error (.apiRequest "Курс для EUR→USD не найден") ∧
    get_exchange_rate [("USD_EUR", Json.obj [("rate", Json.num 2)])]
      "EUR" "USD" = .ok (1 / 2) := by
  constructor
  · simp [buy_currency, get_currency, currencyNames, pyUpper, tradeRateUSD,
      List.lookup]
  · simp [get_exchange_rate, get_currency, currencyNames, pyUpper, pyStrip,
      extractRate, List.lookup, resolveChain]

theorem buy_currency_ok_apply (wallets : List (String × ℚ)) (c : String)
    (a : ℚ) (pairs : List (String × Json)) (w : List (String × ℚ)) (r : ℚ)
    (h : buy_currency wallets c a pairs = .ok (w, r)) :
    buyApplyWallets wallets c a = .ok w := by
  simp only [buy_currency] at h
  split at h
  · cases h
  · split at h
    · cases h
    · split at h
      · cases h
      · split at h
        · cases h
        · rename_i new_wallets hap
          cases h
          exact hap

theorem buyApplyWallets_new (wallets : List (String × ℚ)) (c : String)
    (a : ℚ) (h : wallets.lookup c = none) :
    buyApplyWallets wallets c a = .ok (wallets ++ [(c, a)]) := by
  simp [buyApplyWallets, h]

/-- C4 (amended): the currency code is validated at the trade boundary
(unknown codes are rejected by `get_currency`, and the uppercased code is
used for the rate lookup), but the wallet created or updated in the
persisted portfolio is keyed by the caller's raw `currency` string, not by
the normalized code: buying with two different spellings of the same
currency from a portfolio holding neither spelling produces two distinct
wallets holding the two amounts separately, and a non-uppercase wallet key
is persisted whenever the raw argument is non-uppercase. -/
theorem buy_wallet_keyed_by_raw_string
    (wallets w₁ w₂ : List (String × ℚ)) (s₁ s₂ : String) (a b r₁ r₂ : ℚ)
    (pairs : List (String × Json))
    (hs : s₁ ≠ s₂)
    (h1 : wallets.lookup s₁ = none) (h2 : wallets.lookup s₂ = none)
    (hb1 : buy_currency wallets s₁ a pairs = .ok (w₁, r₁))
    (hb2 : buy_currency w₁ s₂ b pairs = .ok (w₂, r₂)) :
    w₂.lookup s₁ = some a ∧ w₂.lookup s₂ = some b := by
  have ha1 := buy_currency_ok_apply _ _ _ _ _ _ hb1
  rw [buyApplyWallets_new _ _ _ h1] at ha1
  have hw1 : w₁ = wallets ++ [(s₁, a)] := by
    cases ha1
    rfl
  subst hw1
  have hbe : (s₂ == s₁) = false := beq_eq_false_iff_ne.mpr (Ne.symm hs)
  have hl2 : (wallets ++ [(s₁, a)]).lookup s₂ = none := by
    rw [lookup_append_none _ _ _ h2]
    simp [List.lookup, hbe]
  have ha2 := buy_currency_ok_apply _ _ _ _ _ _ hb2
  rw [buyApplyWallets_new _ _ _ hl2] at ha2
  have hw2 : w₂ = (wallets ++ [(s₁, a)]) ++ [(s₂, b)] := by
    cases ha2
    rfl
  subst hw2
  constructor
  · rw [List.append_assoc, lookup_append_none _ _ _ h1]
    simp [List.lookup]
  · rw [List.append_assoc, lookup_append_none _ _ _ h2]
    simp [List.lookup, hbe]

/-- Witness for C4 (amended): buying "eur" then "EUR" from an empty
portfolio leaves the amounts under the two distinct raw keys. -/
theorem buy_wallet_keyed_by_raw_string_witness :
    ([("eur", (2 : ℚ)), ("EUR", (3 : ℚ))] : List (String × ℚ)).lookup "eur" =
      some 2 ∧
    ([("eur", (2 : ℚ)), ("EUR", (3 : ℚ))] : List (String × ℚ)).lookup "EUR" =
      some 3 :=
  buy_wallet_keyed_by_raw_string [] [("eur", 2)] [("eur", 2), ("EUR", 3)]
    "eur" "EUR" 2 3 1 1 [("EUR_USD", Json.obj [("rate", Json.num 1)])]
    (by decide) rfl rfl
    (by
      have hc : get_currency "eur" = .ok ⟨"Euro", "EUR"⟩ := by decide
      have ht : tradeRateUSD [("EUR_USD", Json.obj [("rate", Json.num 1)])]
          "EUR" = .ok 1 := by decide
      norm_num [buy_currency, hc, ht, buyApplyWallets, List.lookup])
    (by
      have hc : get_currency "EUR" = .ok ⟨"Euro", "EUR"⟩ := by decide
      have ht : tradeRateUSD [("EUR_USD", Json.obj [("rate", Json.num 1)])]
          "EUR" = .ok 1 := by decide
      have hw : buyApplyWallets [("eur", 2)] "EUR" 3 =
          .ok [("eur", 2), ("EUR", 3)] := by decide
      norm_num [buy_currency, hc, ht, hw])

/-- C4 counterexample: buy(user, "eur", 2) followed by buy(user, "EUR", 3)
does not deposit into one and the same wallet with final balance 5 — it
persists two wallets keyed "eur" and "EUR", the first of them a
non-uppercase key. -/
theorem buy_mixed_case_two_wallets :
    buy_currency [] "eur" 2 [("EUR_USD", Json.obj [("rate", Json.num 1)])] =
      .ok ([("eur", 2)], 1) ∧
    buy_currency [("eur", 2)] "EUR" 3
      [("EUR_USD", Json.obj [("rate", Json.num 1)])] =
      .ok ([("eur", 2), ("EUR", 3)], 1) ∧
    ([("eur", (2 : ℚ)), ("EUR", (3 : ℚ))] : List (String × ℚ)) ≠
      [("EUR", (5 : ℚ))] := by
  refine ⟨?_, ?_, by decide⟩
  · have hc : get_currency "eur" = .ok ⟨"Euro", "EUR"⟩ := by decide
    have ht : tradeRateUSD [("EUR_USD", Json.obj [("rate", Json.num 1)])]
        "EUR" = .ok 1 := by decide
    norm_num [buy_currency, hc, ht, buyApplyWallets, List.lookup]
  · have hc : get_currency "EUR" = .ok ⟨"Euro", "EUR"⟩ := by decide
    have ht : tradeRateUSD [("EUR_USD", Json.obj [("rate", Json.num 1)])]
        "EUR" = .ok 1 := by decide
    have hw : buyApplyWallets [("eur", 2)] "EUR" 3 =
        .ok [("eur", 2), ("EUR", 3)] := by decide
    norm_num [buy_currency, hc, ht, hw]

/-- C5 (amended): `get_exchange_rate` never returns a zero rate (a chain
result of 0 is rejected with `ApiRequestError`), and the reverse and
bridge strategies guard their denominators, so no division by zero occurs;
but a stored rate 0 on the direct pair is not treated like an absent pair:
the `elif` chain stops at the first present key, so when the direct pair is
present with rate 0, resolution fails with `ApiRequestError` instead of
returning the reverse or bridged rate. -/
theorem resolver_zero_rate_policy :
    (∀ (pairs : List (String × Json)) (fc tc : String) (r : ℚ),
      get_exchange_rate pairs fc tc = .ok r → r ≠ 0) ∧
    (∀ (pairs : List (String × Json)) (c₁ c₂ nm₁ nm₂ : String),
      get_currency c₁ = .ok ⟨nm₁, c₁⟩ → get_currency c₂ = .ok ⟨nm₂, c₂⟩ →
      c₁ ≠ c₂ →
      (pairs.map fun p => (p.1, extractRate p.2)).lookup (c₁ ++ "_" ++ c₂) =
        some 0 →
      get_exchange_rate pairs c₁ c₂ =
        .error (.apiRequest ("Курс " ++ c₁ ++ "→" ++ c₂ ++
          " недоступен"))) := by
  constructor
  · intro pairs fc tc r h
    simp only [get_exchange_rate] at h
    split at h
    · cases h
    · split at h
      · cases h
        norm_num
      · split at h
        · cases h
        · cases h
        · split at h
          · cases h
          · rename_i r2 h0
            split at h
            · cases h
            · rename_i hr0
              cases h
              exact hr0
  · intro pairs c₁ c₂ nm₁ nm₂ hv1 hv2 hne hdir
    obtain ⟨hcode1, hlook1⟩ := get_currency_ok c₁ ⟨nm₁, c₁⟩ hv1
    obtain ⟨hcode2, hlook2⟩ := get_currency_ok c₂ ⟨nm₂, c₂⟩ hv2
    obtain ⟨-, hstrip1, hne1⟩ :=
      currency_keys_normalized (c₁, nm₁) (lookup_some_mem _ _ _ hlook1)
    obtain ⟨-, hstrip2, hne2⟩ :=
      currency_keys_normalized (c₂, nm₂) (lookup_some_mem _ _ _ hlook2)
    have h1 : pyStrip (pyUpper c₁) = c₁ := by rw [← hcode1]; exact hstrip1
    have h2 : pyStrip (pyUpper c₂) = c₂ := by rw [← hcode2]; exact hstrip2
    have hrc : resolveChain (pairs.map fun p => (p.1, extractRate p.2))
        c₁ c₂ "USD" = some 0 := by
      simp only [resolveChain, hdir]
    rw [get_exchange_rate_eval pairs c₁ c₂ nm₁ nm₂ h1 h2 hne1 hne2 hne
      hv1 hv2]
    simp only [hrc]
    simp

/-- Witness for C5 (amended): the resolved rate 2 is nonzero, and on a
store whose direct pair EUR_USD has rate 0 while the reverse pair USD_EUR
has rate 4, resolution fails. -/
theorem resolver_zero_rate_policy_witness :
    (2 : ℚ) ≠ 0 ∧
    get_exchange_rate
      [("EUR_USD", Json.obj [("rate", Json.num 0)]),
       ("USD_EUR", Json.obj [("rate", Json.num 4)])] "EUR" "USD" =
      .error (.apiRequest "Курс EUR→USD недоступен") :=
  ⟨resolver_zero_rate_policy.1 [("EUR_USD", Json.obj [("rate", Json.num 2)])]
      "EUR" "USD" 2
      (by simp [get_exchange_rate, get_currency, currencyNames, pyUpper,
        pyStrip, extractRate, List.lookup, resolveChain]),
   resolver_zero_rate_policy.2
      [("EUR_USD", Json.obj [("rate", Json.num 0)]),
       ("USD_EUR", Json.obj [("rate", Json.num 4)])]
      "EUR" "USD" "Euro" "US Dollar" (by decide) (by decide) (by decide)
      (by decide)⟩

/-- C5 counterexample: a store with the direct pair EUR_GBP present at
rate 0 and the reverse pair GBP_EUR present at nonzero rate 2 makes
`get_exchange_rate` fail, while the same store without the zero direct
pair resolves 1/2 through the reverse strategy — so a stored 0 is not
treated like an absent pair. -/
theorem zero_direct_rate_chain_stops :
    get_exchange_rate
      [("EUR_GBP", Json.obj [("rate", Json.num 0)]),
       ("GBP_EUR", Json.obj [("rate", Json.num 2)])] "EUR" "GBP" =
      .error (.apiRequest "Курс EUR→GBP недоступен") ∧
    get_exchange_rate [("GBP_EUR", Json.obj [("rate", Json.num 2)])]
      "EUR" "GBP" = .ok (1 / 2) := by
  constructor
  · simp [get_exchange_rate, get_currency, currencyNames, pyUpper, pyStrip,
      extractRate, List.lookup, resolveChain]
  · simp [get_exchange_rate, get_currency, currencyNames, pyUpper, pyStrip,
      extractRate, List.lookup, resolveChain]

/-- Splitting a character list at every occurrence of a separator;
`splitOnChar sep l` always returns at least one (possibly empty) group. -/
def splitOnChar (sep : Char) : List Char → List (List Char)
  | [] => [[]]
  | c :: rest =>
    match splitOnChar sep rest with
    | [] => [[]]
    | grp :: groups =>
      if c = sep then [] :: grp :: groups else (c :: grp) :: groups

/-- Python `str.split(sep)` for a one-character separator, as used by
`pair_key.split("_")`. -/
def pySplit (s : String) (sep : Char) : List String :=
  (splitOnChar sep s.data).map (fun l => ⟨l⟩)

/-- One record of the history log (parser_service/updater.py,
`_save_to_history`): `{id, from_currency, to_currency, rate, timestamp,
source}`. -/
structure HistoryRecord where
  id : String
  from_currency : String
  to_currency : String
  rate : ℚ
  timestamp : String
  source : String
  deriving DecidableEq

/-- The source label `", ".join(sources_used) if sources_used else
"ParserService"`. -/
def sourceLabel (sources_used : List String) : String :=
  if sources_used = [] then "ParserService"
  else String.intercalate ", " sources_used

/-- The history record built for one pair inside `_save_to_history`. -/
def mkHistoryRecord (sources_used : List String) (timestamp : String)
    (p : String × ℚ) : HistoryRecord :=
  { id := p.1 ++ "_" ++ timestamp
    from_currency := ((pySplit p.1 '_').get? 0).getD ""
    to_currency := ((pySplit p.1 '_').get? 1).getD ""
    rate := p.2
    timestamp := timestamp
    source := sourceLabel sources_used }

/-- `RatesUpdater._save_to_history` (parser_service/updater.py lines
114–149) as its effect on the persisted history list: every pair is
appended as a record, then the list is truncated to its last 1000 entries
when it exceeds 1000.  A pair key that does not split into exactly two
parts makes the Python two-variable unpacking raise inside the method's
`try`, in which case nothing is saved and the stored history is unchanged
— hence the guard. -/
def save_to_history (history : List HistoryRecord)
    (rates : List (String × ℚ)) (sources_used : List String)
    (timestamp : String) : List HistoryRecord :=
  if rates.all (fun p => (pySplit p.1 '_').length = 2) then
    let appended := history ++ rates.map (mkHistoryRecord sources_used timestamp)
    if 1000 < appended.length then appended.drop (appended.length - 1000)
    else appended
  else history

/-- Python `dict.update`: existing keys are overwritten in place, new keys
are appended in their iteration order. -/
def dictUpdate (d new : List (String × ℚ)) : List (String × ℚ) :=
  d.map (fun p =>
    match new.lookup p.1 with
    | some v => (p.1, v)
    | none => p) ++
  new.filter (fun p => (d.lookup p.1).isNone)

/-- The result dict of `RatesUpdater.run_update`: `success`,
`rates_count`, `sources`, `errors` (the `last_refresh` and `file_saved`
entries are wall-clock and path data, not modelled). -/
structure RunResult where
  success : Bool
  rates_count : ℕ
  sources : List String
  errors : List String
  deriving DecidableEq

/-- The persisted state `run_update` touches: the rates snapshot's pairs
(as the rate map; the per-pair `updated_at`/`source` stamps are wall-clock
strings attached uniformly to every written pair) and the history list. -/
structure UpdaterState where
  pairs : List (String × ℚ)
  history : List HistoryRecord
  deriving DecidableEq

/-- `RatesUpdater.run_update` (parser_service/updater.py lines 41–112):
each selected client is polled (its network fetch modelled as an `Except`
parameter); a success merges the returned map into `all_rates` and appends
the client's name to `sources_used`, a failure appends the error string to
`errors` without aborting the other client.  If no rates were collected,
`ApiRequestError("Не удалось получить курсы")` is raised and the state is
left unchanged; otherwise the merged snapshot is written to the store, the
history is appended via `_save_to_history`, and the result reports
success, the number of rates, the sources used and the collected errors. -/
def run_update (source : Option String)
    (coingecko_fetch exchangerate_fetch : Except String (List (String × ℚ)))
    (st : UpdaterState) (timestamp : String) :
    Except String RunResult × UpdaterState :=
  let s0 : List (String × ℚ) × List String × List String := ([], [], [])
  let s1 :=
    if source = none ∨ source = some "coingecko" then
      match coingecko_fetch with
      | .ok crypto_rates =>
        (dictUpdate s0.1 crypto_rates, s0.2.1 ++ ["CoinGecko"], s0.2.2)
      | .error e => (s0.1, s0.2.1, s0.2.2 ++ [e])
    else s0
  let s2 :=
    if source = none ∨ source = some "exchangerate" then
      match exchangerate_fetch with
      | .ok fiat_rates =>
        (dictUpdate s1.1 fiat_rates, s1.2.1 ++ ["ExchangeRate-API"], s1.2.2)
      | .error e => (s1.1, s1.2.1, s1.2.2 ++ [e])
    else s1
  if s2.1 = [] then (.error "Не удалось получить курсы", st)
  else
    (.ok { success := true, rates_count := s2.1.length, sources := s2.2.1,
           errors := s2.2.2 },
     { pairs := s2.1,
       history := save_to_history st.history s2.1 s2.2.1 timestamp })

theorem dictUpdate_nil (new : List (String × ℚ)) : dictUpdate [] new = new := by
  simp [dictUpdate, List.lookup]

/-- C6: when one source client returns a 3-rate map and the other raises,
`run_update` returns success with `rates_count = 3`, only the successful
source in `sources` and exactly the one error string in `errors`; the
merged snapshot holding the 3 rates is written to the store and the
history is appended.  Both orders (CoinGecko succeeding, or
ExchangeRate-API succeeding) are covered. -/
theorem run_update_partial_failure (r : List (String × ℚ)) (e : String)
    (st : UpdaterState) (ts : String) (hlen : r.length = 3) :
    run_update none (.ok r) (.error e) st ts =
      (.ok { success := true, rates_count := 3, sources := ["CoinGecko"],
             errors := [e] },
       { pairs := r,
         history := save_to_history st.history r ["CoinGecko"] ts }) ∧
    run_update none (.error e) (.ok r) st ts =
      (.ok { success := true, rates_count := 3,
             sources := ["ExchangeRate-API"], errors := [e] },
       { pairs := r,
         history := save_to_history st.history r ["ExchangeRate-API"] ts }) := by
  have hne : ¬ (r = []) := by
    intro hr
    rw [hr] at hlen
    cases hlen
  constructor
  · simp [run_update, dictUpdate_nil, hne, hlen]
  · simp [run_update, dictUpdate_nil, hne, hlen]

/-- Witness for C6 at a concrete 3-rate success and a concrete failure. -/
theorem run_update_partial_failure_witness :
    run_update none (.ok [("BTC_USD", 3), ("ETH_USD", 4), ("XRP_USD", 5)])
      (.error "Ошибка сети: таймаут") ⟨[], []⟩ "t" =
      (.ok { success := true, rates_count := 3, sources := ["CoinGecko"],
             errors := ["Ошибка сети: таймаут"] },
       { pairs := [("BTC_USD", 3), ("ETH_USD", 4), ("XRP_USD", 5)],
         history := save_to_history []
           [("BTC_USD", 3), ("ETH_USD", 4), ("XRP_USD", 5)]
           ["CoinGecko"] "t" }) :=
  (run_update_partial_failure
    [("BTC_USD", 3), ("ETH_USD", 4), ("XRP_USD", 5)]
    "Ошибка сети: таймаут" ⟨[], []⟩ "t" rfl).1

/-- C7 (amended): when every selected source client fails, `run_update`
raises a single `ApiRequestError` whose message is the fixed string
"Не удалось получить курсы" — it does not name the failing sources — and
the store and history are left unchanged. -/
theorem run_update_total_failure (src : Option String) (e₁ e₂ : String)
    (st : UpdaterState) (ts : String) :
    run_update src (.error e₁) (.error e₂) st ts =
      (.error "Не удалось получить курсы", st) := by
  by_cases h1 : src = none ∨ src = some "coingecko" <;>
    by_cases h2 : src = none ∨ src = some "exchangerate" <;>
      simp [run_update, h1, h2]

/-- C7 counterexample: the error raised on total failure is one and the
same fixed message whatever the failing sources reported, so it cannot
name the failing sources. -/
theorem total_failure_message_fixed :
    (run_update none
       (.error "Ошибка при обращении к внешнему API: HTTP 500")
       (.error "Ошибка сети: таймаут") ⟨[], []⟩ "t").1 =
      .error "Не удалось получить курсы" ∧
    (run_update none (.error "a") (.error "b") ⟨[], []⟩ "t").1 =
      (run_update none (.error "c") (.error "d") ⟨[], []⟩ "t").1 := by
  constructor
  · rfl
  · rfl

/-- C8: appending records so that the history would reach 1005 entries
leaves exactly the last 1000 of the appended list — the 1000 most recent
in their original insertion order, the oldest 5 dropped. -/
theorem history_cap_1005 (h : List HistoryRecord)
    (rates : List (String × ℚ)) (su : List String) (ts : String)
    (hwf : ∀ p ∈ rates, (pySplit p.1 '_').length = 2)
    (hlen : h.length + rates.length = 1005) :
    save_to_history h rates su ts =
      (h ++ rates.map (mkHistoryRecord su ts)).drop 5 ∧
    (save_to_history h rates su ts).length = 1000 := by
  have hall : rates.all (fun p => decide ((pySplit p.1 '_').length = 2)) =
      true := by
    rw [List.all_eq_true]
    intro p hp
    exact decide_eq_true (hwf p hp)
  have hlen2 : (h ++ rates.map (mkHistoryRecord su ts)).length = 1005 := by
    rw [List.length_append, List.length_map]
    exact hlen
  have heq : save_to_history h rates su ts =
      (h ++ rates.map (mkHistoryRecord su ts)).drop 5 := by
    rw [save_to_history, if_pos hall, if_pos (by rw [hlen2]; norm_num),
      hlen2]
  refine ⟨heq, ?_⟩
  rw [heq, List.length_drop, hlen2]

/-- Witness for C8: a history of 1002 records plus 3 appended records
leaves 1000. -/
theorem history_cap_1005_witness :
    save_to_history (List.replicate 1002 (HistoryRecord.mk "i" "X" "Y" 1 "s" "p"))
      [("A_B", 1), ("C_D", 2), ("E_F", 3)] ["CoinGecko"] "t" =
      (List.replicate 1002 (HistoryRecord.mk "i" "X" "Y" 1 "s" "p") ++
        [("A_B", (1 : ℚ)), ("C_D", 2), ("E_F", 3)].map
          (mkHistoryRecord ["CoinGecko"] "t")).drop 5 ∧
    (save_to_history
      (List.replicate 1002 (HistoryRecord.mk "i" "X" "Y" 1 "s" "p"))
      [("A_B", 1), ("C_D", 2), ("E_F", 3)] ["CoinGecko"] "t").length =
      1000 :=
  history_cap_1005 _ _ _ _ (by decide) (by rw [List.length_replicate]; rfl)

/-- Python `round(x, 2)` as centesimal rounding over exact rationals.
Python rounds floats half-to-even; the theorems below compare two
totals rounded by the same function, so the tie rule is immaterial. -/
def round2 (q : ℚ) : ℚ := (round (q * 100) : ℤ) / 100

/-- The per-wallet conversion of `Portfolio.get_total_value`
(core/models.py lines 261–289): the base currency counts at face value;
otherwise the direct pair `CODE_BASE` is used if present, else the
reverse pair `BASE_CODE` inverted when nonzero (a zero reverse rate
yields rate 0); a missing pair or a rate of 0 skips the wallet, which
contributes 0 to the running total. -/
def walletValue (pairs : List (String × Json)) (base_currency : String)
    (currency_code : String) (balance : ℚ) : ℚ :=
  if currency_code = base_currency then balance
  else
    match pairs.lookup (currency_code ++ "_" ++ base_currency) with
    | some pair_data =>
      let rate := extractRate pair_data
      if rate = 0 then 0 else balance * rate
    | none =>
      match pairs.lookup (base_currency ++ "_" ++ currency_code) with
      | some pair_data =>
        let reverse_rate := extractRate pair_data
        let rate := if reverse_rate = 0 then 0 else 1 / reverse_rate
        if rate = 0 then 0 else balance * rate
      | none => 0

/-- `Portfolio.get_total_value` (core/models.py lines 254–291) over the
wallets as (code, balance) pairs and the loaded snapshot's `pairs`
mapping: the total of the converted balances, wallets without a usable
rate skipped, rounded to two decimal places. -/
def get_total_value (wallets : List (String × ℚ))
    (pairs : List (String × Json)) (base_currency : String) : ℚ :=
  round2 (wallets.foldl
    (fun total p => total + walletValue pairs base_currency p.1 p.2) 0)

/-- `convert_rates` (core/utils.py lines 124–165) over the flat numeric
rate map it receives from `show_user_portfolio` (which extracts
`pairs → rate` before calling): both codes are validated via
`get_currency` (an unknown code raises out of the function), then the
target leg `to_code_USD` is resolved (1 for the base itself, else the
stored value, else the failure dict `result = 0` with a message), then
the source leg likewise, and the quotient is returned with "Успешно".
A stored zero target rate makes the Python quotient raise
`ZeroDivisionError`. -/
def convert_rates (from_currency to_currency : String)
    (exchange_rates : List (String × ℚ)) : Except CoreError (ℚ × String) :=
  match get_currency from_currency, get_currency to_currency with
  | .error e, _ => .error e
  | .ok _, .error e => .error e
  | .ok from_obj, .ok to_obj =>
    let BASE := "USD"
    let from_code := from_obj.code
    let to_code := to_obj.code
    let from_key := from_code ++ "_" ++ BASE
    let to_key := to_code ++ "_" ++ BASE
    if to_key = BASE ++ "_" ++ BASE then
      if from_key = BASE ++ "_" ++ BASE then .ok (1 / 1, "Успешно")
      else
        match exchange_rates.lookup from_key with
        | some rate_curr => .ok (rate_curr / 1, "Успешно")
        | none =>
          .ok (0, "Курс для " ++ from_code ++ "→" ++ to_code ++ " не найден")
    else
      match exchange_rates.lookup to_key with
      | some rate_base =>
        if from_key = BASE ++ "_" ++ BASE then
          if rate_base = 0 then .error .zeroDivision
          else .ok (1 / rate_base, "Успешно")
        else
          match exchange_rates.lookup from_key with
          | some rate_curr =>
            if rate_base = 0 then .error .zeroDivision
            else .ok (rate_curr / rate_base, "Успешно")
          | none =>
            .ok (0, "Курс для " ++ from_code ++ "→" ++ to_code ++
              " не найден")
      | none =>
        .ok (0, "Курс для " ++ from_code ++ "→USD не найден")

/-- Outcome of the valuation loop of `show_user_portfolio`
(core/usecases.py lines 214–234): a completed total, the early
`return message` taken when a conversion comes back with rate 0, or an
exception escaping the loop (the loop is outside the function's `try`). -/
inductive ShowResult where
  | ok (total : ℚ)
  | aborted (message : String)
  | raised (e : CoreError)
  deriving DecidableEq

/-- The wallet loop of `show_user_portfolio` (core/usecases.py lines
214–234): the base currency counts at face value; any other currency is
converted via `convert_rates`, and a conversion with `result = 0` makes
the whole function return the converter's message at once, dropping the
wallets processed so far. -/
def showLoop (exchange_rates : List (String × ℚ)) (base_currency : String) :
    List (String × ℚ) → ℚ → ShowResult
  | [], total => ShowResult.ok total
  | (currency, balance) :: rest, total =>
    if currency = base_currency then
      showLoop exchange_rates base_currency rest (total + balance)
    else
      match convert_rates currency base_currency exchange_rates with
      | .error e => ShowResult.raised e
      | .ok (rate, message) =>
        if rate = 0 then ShowResult.aborted message
        else showLoop exchange_rates base_currency rest
          (total + balance * rate)

theorem foldl_add_walletValue (pairs : List (String × Json)) (base : String)
    (ws : List (String × ℚ)) (init : ℚ) :
    ws.foldl (fun total p => total + walletValue pairs base p.1 p.2) init =
      init + (ws.map (fun p => walletValue pairs base p.1 p.2)).sum := by
  induction ws generalizing init with
  | nil => simp
  | cons p t ih =>
    simp only [List.foldl, List.map, List.sum_cons]
    rw [ih]
    ring

/-- C9 (amended): `Portfolio.get_total_value` is best-effort — a wallet
whose currency has no pair into the base currency in either direction is
skipped (contributing nothing) and the remaining wallets are still summed
into the total.  The `show_user_portfolio` interface, however, is not
best-effort: it aborts on the first unconvertible wallet (see the
counterexample theorem). -/
theorem get_total_value_skips_unresolvable (ws₁ ws₂ : List (String × ℚ))
    (pairs : List (String × Json)) (base c : String) (b : ℚ)
    (hcb : c ≠ base)
    (hdir : pairs.lookup (c ++ "_" ++ base) = none)
    (hrev : pairs.lookup (base ++ "_" ++ c) = none) :
    get_total_value (ws₁ ++ (c, b) :: ws₂) pairs base =
      get_total_value (ws₁ ++ ws₂) pairs base := by
  have hzero : walletValue pairs base c b = 0 := by
    simp [walletValue, hcb, hdir, hrev]
  unfold get_total_value
  rw [foldl_add_walletValue, foldl_add_walletValue]
  congr 2
  simp [hzero]

/-- Witness for C9 (amended): a GBP wallet with no GBP rate in the store
is skipped and the USD wallet still counts. -/
theorem get_total_value_skips_unresolvable_witness :
    get_total_value [("USD", 100), ("GBP", 5)]
      [("EUR_USD", Json.obj [("rate", Json.num 2)])] "USD" =
      get_total_value [("USD", 100)]
        [("EUR_USD", Json.obj [("rate", Json.num 2)])] "USD" :=
  get_total_value_skips_unresolvable [("USD", 100)] []
    [("EUR_USD", Json.obj [("rate", Json.num 2)])] "USD" "GBP" 5
    (by decide) rfl rfl

/-- C9 counterexample: on a portfolio holding USD 100 and GBP 5 with no
GBP pair in the store, `show_user_portfolio`'s loop aborts with the
converter's message instead of skipping GBP, while
`Portfolio.get_total_value` on the same data skips GBP and returns 100. -/
theorem show_portfolio_aborts_on_unresolvable :
    showLoop [("EUR_USD", (2 : ℚ))] "USD" [("USD", 100), ("GBP", 5)] 0 =
      ShowResult.aborted "Курс для GBP→USD не найден" ∧
    get_total_value [("USD", 100), ("GBP", 5)]
      [("EUR_USD", Json.obj [("rate", Json.num 2)])] "USD" = 100 := by
  constructor
  · have hg : get_currency "GBP" = .ok ⟨"British Pound", "GBP"⟩ := by decide
    have hu : get_currency "USD" = .ok ⟨"US Dollar", "USD"⟩ := by decide
    simp [showLoop, convert_rates, hg, hu, List.lookup]
  · have h1 : walletValue [("EUR_USD", Json.obj [("rate", Json.num 2)])]
        "USD" "USD" (100 : ℚ) = 100 := by decide
    have h2 : walletValue [("EUR_USD", Json.obj [("rate", Json.num 2)])]
        "USD" "GBP" (5 : ℚ) = 0 := by decide
    norm_num [get_total_value, List.foldl, h1, h2, round2, round_eq]

end ValutaHub
